import Mathlib

/-!
Shallow embedding of the Greybus operation core (`drivers/staging/greybus`
early `operation.c`, the first source file of this repository) and proofs
about the claims of its specification.

The embedding models machine integers as `Nat` with explicit `% 2 ^ w`
where wrap matters, buffers as byte lists paired with an allocator pointer,
fallible C paths as `Except`/`Option`, and effects on the host-device
driver (`buffer_alloc` / `buffer_free` / `buffer_send` / `buffer_cancel`)
as explicit event traces.  Connection-level state (the `operations` and
`pending` lists, the id counter, the completion workqueue) is threaded
explicitly; operations are addressed through `OpRef` keys standing for the
C pointers.
-/

namespace Greybus

/-- Top bit of the type byte: set means response, clear means request
(`GB_OPERATION_TYPE_RESPONSE` in the source). -/
def GB_OPERATION_TYPE_RESPONSE : Nat := 0x80

/-- `GB_OPERATION_MESSAGE_SIZE_MAX` from the source: 4096. -/
def GB_OPERATION_MESSAGE_SIZE_MAX : Nat := 4096

/-- Size in bytes of `struct gb_operation_msg_hdr`: two le16 fields
(`size`, `operation_id`), two u8 fields (`type`, `result`) and two pad
bytes, 8-byte aligned. -/
def HDR_SIZE : Nat := 8

/-- Result code for success; the header comment of the source fixes a zero
status byte as success. -/
def GB_OP_SUCCESS : Nat := 0

/-- Modelled from the spec: the numeric result codes `GB_OP_TIMEOUT`,
`GB_OP_PROTOCOL_BAD` and `GB_OP_OVERFLOW` are declared in `greybus.h`,
which is not among the source files; the spec only fixes that they are
distinct and non-zero (`Success (0)`, `Timeout`, `Overflow`, `ProtocolBad`).
We pick distinct non-zero byte values. -/
def GB_OP_TIMEOUT : Nat := 2

/-- Modelled from the spec: see `GB_OP_TIMEOUT`. -/
def GB_OP_PROTOCOL_BAD : Nat := 4

/-- Modelled from the spec: see `GB_OP_TIMEOUT`. -/
def GB_OP_OVERFLOW : Nat := 5

/-- Linux errno value `E2BIG` (the source returns `-E2BIG`). -/
def E2BIG : Int := 7

/-- Linux errno value `ENOMEM` (the source returns `-ENOMEM`). -/
def ENOMEM : Int := 12

/-- Linux errno value `ENOTCONN` (the source returns `-ENOTCONN`). -/
def ENOTCONN : Int := 107

/-- A buffer handed out by the host-device driver: an allocator pointer
and the pointed-to bytes. -/
structure GbBuffer where
  ptr : Nat
  bytes : List Nat
  deriving DecidableEq

/-- `struct gb_message`: frame buffer (null when absent), its size, and
the transport send cookie (null unless in flight).  The payload pointer of
the C struct is `buffer + HDR_SIZE` and is kept implicit. -/
structure GbMessage where
  buffer : Option GbBuffer
  buffer_size : Nat
  cookie : Option Nat
  deriving DecidableEq

/-- `struct gb_operation` (the fields the core reads and writes):
correlation id, result byte, presence of a completion callback, cancel
flag, whether the delayed timeout work is armed, the two messages, the
reference count, and a counter of how many times `gb_operation_complete`
has delivered completion for this operation (callback invocation or
`complete_all`). -/
structure GbOperation where
  id : Nat
  result : Nat
  hasCallback : Bool
  canceled : Bool
  timerArmed : Bool
  request : GbMessage
  response : GbMessage
  kref : Nat
  completions : Nat
  deriving DecidableEq

/-- A message with no buffer, as left by `kmem_cache_zalloc`. -/
def emptyMessage : GbMessage :=
  { buffer := none, buffer_size := 0, cookie := none }

/-- A zero-allocated operation, as produced by `kmem_cache_zalloc` plus
`kref_init` in `gb_operation_create_common`. -/
def newOperation : GbOperation :=
  { id := 0, result := 0, hasCallback := false, canceled := false,
    timerArmed := false, request := emptyMessage, response := emptyMessage,
    kref := 1, completions := 0 }

/-- Events observed by the host-device driver. -/
inductive HdEvent where
  | alloc (ptrv : Nat) (sz : Nat)
  | allocFail (sz : Nat)
  | free (ptrv : Option Nat)
  | bufcancel (ck : Nat)
  deriving DecidableEq

/-- Write a little-endian 16-bit value at byte offset 0 of a frame
(the `size` header field). -/
def setHeaderSize (b : List Nat) (sz : Nat) : List Nat :=
  (b.set 0 (sz % 256)).set 1 (sz / 256 % 256)

/-- Write a little-endian 16-bit value at byte offset 2 of a frame
(the `operation_id` header field, `cpu_to_le16`). -/
def setHeaderId (b : List Nat) (v : Nat) : List Nat :=
  (b.set 2 (v % 256)).set 3 (v / 256 % 256)

/-- Write the type byte at offset 4 of a frame. -/
def setHeaderType (b : List Nat) (t : Nat) : List Nat :=
  b.set 4 t

/-- Read a little-endian 16-bit value at byte offset `i` (`le16_to_cpu`). -/
def le16At (b : List Nat) (i : Nat) : Nat :=
  b.getD i 0 + 256 * b.getD (i + 1) 0

/-- `memcpy(dst, src, n)` over byte lists: the first `n` bytes of `dst`
are replaced by the first `n` bytes of `src`. -/
def memcpyInto (dst src : List Nat) (n : Nat) : List Nat :=
  src.take n ++ dst.drop n

/-- `gb_operation_complete`: if a callback is registered invoke it,
otherwise `complete_all` wakes the waiters; either way exactly one
completion is delivered, which the model counts. -/
def gb_operation_complete (op : GbOperation) : GbOperation :=
  { op with completions := op.completions + 1 }

/-- `operation_timeout`: the delayed-work handler marks the result as
timed out and runs the completion handler.  Note that it touches neither
the pending list nor the timer state. -/
def operation_timeout (op : GbOperation) : GbOperation :=
  gb_operation_complete { op with result := GB_OP_TIMEOUT }

/-- `gb_operation_request_handle`: dispatch an incoming request to the
protocol handler when one is registered (the handler itself is an external
collaborator whose effects are outside the core and are abstracted away),
otherwise log an error and mark the request bad. -/
def gb_operation_request_handle (hasHandler : Bool) (op : GbOperation) : GbOperation :=
  if hasHandler then op
  else { op with result := GB_OP_PROTOCOL_BAD }

/-- `gb_operation_recv_work`: the workqueue body; a null response buffer
identifies an incoming request, which is handled first, then completion is
delivered. -/
def gb_operation_recv_work (hasHandler : Bool) (op : GbOperation) : GbOperation :=
  let op2 := if op.response.buffer = none
    then gb_operation_request_handle hasHandler op
    else op
  gb_operation_complete op2

/-- `gb_message_send`: hand the buffer to `buffer_send`; on success store
the returned cookie and return 0, on failure (`IS_ERR`) null the cookie
and return the error. The transport outcome is an input of the model. -/
def gb_message_send (m : GbMessage) (sendResult : Except Int Nat) : GbMessage × Int :=
  match sendResult with
  | Except.ok ck => ({ m with cookie := some ck }, 0)
  | Except.error e => ({ m with cookie := none }, e)

/-- `gb_message_cancel`: if the message is in flight (cookie non-null)
ask the transport to cancel it, otherwise do nothing.  The cookie is not
cleared. -/
def gb_message_cancel (m : GbMessage) : List HdEvent :=
  match m.cookie with
  | none => []
  | some ck => [HdEvent.bufcancel ck]

/-- `gb_operation_cancel`: set the canceled flag, cancel the request
message and, when a response buffer exists, the response message.
Returns the updated operation and the transport effects of this call. -/
def gb_operation_cancel (op : GbOperation) : GbOperation × List HdEvent :=
  let op2 := { op with canceled := true }
  (op2, gb_message_cancel op2.request ++
    (if op2.response.buffer.isSome then gb_message_cancel op2.response else []))

/-- `gb_operation_message_init`: reject payloads larger than
`GB_OPERATION_MESSAGE_SIZE_MAX` with `-E2BIG`, grow the size by the header
size, set the response bit on the type for responses, ask the host driver
for a buffer (`-ENOMEM` on null), and fill in the header (`size`, zero
`operation_id`, `type`); the result byte of the fresh buffer is left as
allocated.  The driver allocation outcome is an input of the model. -/
def gb_operation_message_init (op : GbOperation) (ty : Nat) (size : Nat)
    (request : Bool) (allocResult : Option GbBuffer) :
    Except Int GbOperation × List HdEvent :=
  if size > GB_OPERATION_MESSAGE_SIZE_MAX then
    (Except.error (-E2BIG), [])
  else
    let fsize := size + HDR_SIZE
    let ty2 := if request then ty else ty ||| GB_OPERATION_TYPE_RESPONSE
    match allocResult with
    | none => (Except.error (-ENOMEM), [HdEvent.allocFail fsize])
    | some buf =>
      let b : GbBuffer :=
        { ptr := buf.ptr,
          bytes := setHeaderType (setHeaderId (setHeaderSize buf.bytes fsize) 0) ty2 }
      let m : GbMessage := { buffer := some b, buffer_size := fsize, cookie := none }
      (Except.ok (if request then { op with request := m } else { op with response := m }),
       [HdEvent.alloc buf.ptr fsize])

/-- `gb_operation_message_exit`: unconditionally hand the message buffer
(null included) to `buffer_free` and null the message fields (the cookie
is not cleared by the source). -/
def gb_operation_message_exit (m : GbMessage) : GbMessage × List HdEvent :=
  ({ buffer := none, buffer_size := 0, cookie := m.cookie },
   [HdEvent.free (m.buffer.map GbBuffer.ptr)])

/-- `gb_operation_create_common`: zero-allocate the operation, initialise
the request message, and for outgoing operations also the response
message; on response-init failure free the request buffer
(`err_request`), on request-init failure only the cache object
(`err_cache`).  `zallocOk` and the two driver allocation outcomes are
inputs of the model; insertion into the connection `operations` list is
done by the connection-level wrappers. -/
def gb_operation_create_common (outgoing : Bool) (ty : Nat)
    (request_size response_size : Nat) (zallocOk : Bool)
    (reqAlloc respAlloc : Option GbBuffer) :
    Option GbOperation × List HdEvent :=
  if !zallocOk then (none, [])
  else
    match gb_operation_message_init newOperation ty request_size true reqAlloc with
    | (Except.error _, ev1) => (none, ev1)
    | (Except.ok op1, ev1) =>
      if outgoing then
        match gb_operation_message_init op1 ty response_size false respAlloc with
        | (Except.error _, ev2) =>
          (none, ev1 ++ ev2 ++ (gb_operation_message_exit op1.request).2)
        | (Except.ok op2, ev2) => (some op2, ev1 ++ ev2)
      else (some op1, ev1)

/-- `_gb_operation_destroy` (the kref release): free the response message
buffer, then the request message buffer (the list removal is
connection-level state). -/
def gb_operation_destroy_events (op : GbOperation) : List HdEvent :=
  (gb_operation_message_exit op.response).2 ++ (gb_operation_message_exit op.request).2

/-- `gb_operation_put`: `WARN_ON` a null operation and do nothing else in
that case; otherwise `kref_put`, destroying the operation when the
reference count reaches zero.  Returns the surviving operation, whether
the warning fired, and the driver events. -/
def gb_operation_put (op : Option GbOperation) :
    Option GbOperation × Bool × List HdEvent :=
  match op with
  | none => (none, true, [])
  | some o =>
    if o.kref ≤ 1 then (none, false, gb_operation_destroy_events o)
    else (some { o with kref := o.kref - 1 }, false, [])

/-- An operation is addressed by a key standing for its C pointer. -/
abbrev OpRef := Nat

/-- Look up an operation by its reference in the live-operation store
(pointer dereference in C). -/
def lookupOp : List (OpRef × GbOperation) → OpRef → Option GbOperation
  | [], _ => none
  | (k, v) :: tl, r => if k = r then some v else lookupOp tl r

/-- Update the operation stored at a reference (pointer write in C);
absent references are untouched. -/
def storeOp : List (OpRef × GbOperation) → OpRef → GbOperation → List (OpRef × GbOperation)
  | [], _, _ => []
  | (k, v) :: tl, r, nv =>
    if k = r then (k, nv) :: storeOp tl r nv else (k, v) :: storeOp tl r nv

/-- Connection-level state read and written by the core: the store of live
operations, the `operations` and `pending` lists of `struct
gb_connection` (holding references, ordered; the tail is the insertion
end, as with `list_move_tail`), the per-connection 16-bit id counter
`op_cycle` (the connection struct lives in `greybus.h`; the spec fixes the
counter at 16 bits), the enabled state, the completion workqueue of
`queue_work` (a list of queued references), and a count of
`gb_connection_err` log lines. -/
structure ConnState where
  ops : List (OpRef × GbOperation)
  operations : List OpRef
  pending : List OpRef
  op_cycle : Nat
  enabled : Bool
  workqueue : List OpRef
  errlog : Nat
  deriving DecidableEq

/-- Dereference an operation in a connection state. -/
def getOp (s : ConnState) (r : OpRef) : Option GbOperation :=
  lookupOp s.ops r

/-- Write an operation back in a connection state. -/
def setOp (s : ConnState) (r : OpRef) (op : GbOperation) : ConnState :=
  { s with ops := storeOp s.ops r op }

/-- First half of `gb_pending_operation_insert`: bump the connection id
counter (`++connection->op_cycle`, a u16 increment, hence the `% 2 ^ 16`)
and move the operation to the tail of the `pending` list
(`list_move_tail`). -/
def assignCycleAndMove (s : ConnState) (r : OpRef) : ConnState :=
  { s with op_cycle := (s.op_cycle + 1) % 65536,
           operations := s.operations.erase r,
           pending := s.pending.erase r ++ [r] }

/-- `gb_pending_operation_insert`: assign
`operation->id = ++connection->op_cycle` (the source has no skip of zero),
move the operation to the tail of the `pending` list, and store the id in
the request header (`cpu_to_le16`). -/
def gb_pending_operation_insert (s : ConnState) (r : OpRef) : ConnState :=
  match getOp (assignCycleAndMove s r) r with
  | none => assignCycleAndMove s r
  | some op =>
    setOp (assignCycleAndMove s r) r
      { op with id := (assignCycleAndMove s r).op_cycle,
                request := { op.request with
                  buffer := op.request.buffer.map
                    (fun b => { b with
                      bytes := setHeaderId b.bytes
                        ((assignCycleAndMove s r).op_cycle) }) } }

/-- `gb_pending_operation_remove`: move the operation off the `pending`
list, back to the tail of the `operations` list. -/
def gb_pending_operation_remove (s : ConnState) (r : OpRef) : ConnState :=
  { s with pending := s.pending.erase r,
           operations := s.operations.erase r ++ [r] }

/-- Predicate of the linear scan in `gb_pending_operation_find`. -/
def pendingMatches (s : ConnState) (operation_id : Nat) (r : OpRef) : Bool :=
  match getOp s r with
  | some op => op.id == operation_id
  | none => false

/-- `gb_pending_operation_find`: linear scan of the `pending` list for the
first operation with the given id. -/
def gb_pending_operation_find (s : ConnState) (operation_id : Nat) : Option OpRef :=
  s.pending.find? (pendingMatches s operation_id)

/-- Run `operation_timeout` on the referenced operation: the delayed work
fires, marks the result `GB_OP_TIMEOUT` and delivers completion.  The
pending list is not touched. -/
def runTimeout (s : ConnState) (r : OpRef) : ConnState :=
  match getOp s r with
  | none => s
  | some op => setOp s r (operation_timeout op)

/-- Run `gb_operation_recv_work` on the referenced operation as the
deferred workqueue does. -/
def runRecvWork (hasHandler : Bool) (s : ConnState) (r : OpRef) : ConnState :=
  match getOp s r with
  | none => s
  | some op => setOp s r (gb_operation_recv_work hasHandler op)

/-- `gb_connection_recv_response`: find the pending operation by id (log
and drop when absent); cancel its delayed timeout work, move it off the
pending list; if the frame exceeds the response buffer, record
`GB_OP_OVERFLOW` and log, and return without queueing; otherwise hack the
status byte from the (not yet overwritten) response payload into the
response header, take the operation result from it, copy the incoming
bytes over the response buffer only when that result reads
`GB_OP_SUCCESS`, and queue the operation on the completion workqueue. -/
def gb_connection_recv_response (s : ConnState) (operation_id : Nat)
    (data : List Nat) (size : Nat) : ConnState :=
  match gb_pending_operation_find s operation_id with
  | none => { s with errlog := s.errlog + 1 }
  | some r =>
    match getOp s r with
    | none => s
    | some op =>
      let op1 := { op with timerArmed := false }
      let s1 := gb_pending_operation_remove (setOp s r op1) r
      if size > op1.response.buffer_size then
        let s2 := setOp s1 r { op1 with result := GB_OP_OVERFLOW }
        { s2 with errlog := s2.errlog + 1 }
      else
        let b := (op1.response.buffer.map GbBuffer.bytes).getD []
        let res := b.getD HDR_SIZE 0
        let b1 := b.set 5 res
        let op2 := { op1 with
          result := res,
          response := { op1.response with
            buffer := op1.response.buffer.map (fun bf => { bf with bytes := b1 }) } }
        let op3 := if op2.result = GB_OP_SUCCESS then
            { op2 with response := { op2.response with
              buffer := op2.response.buffer.map
                (fun bf => { bf with bytes := memcpyInto b1 data size }) } }
          else op2
        let s2 := setOp s1 r op3
        { s2 with workqueue := s2.workqueue ++ [r] }

/-- `gb_connection_recv_request`: create an incoming operation sized to
the frame (log and drop on failure), stamp its id from the header, copy
the incoming bytes into its request buffer, add it to the connection
`operations` list (done inside `gb_operation_create_common` in the
source) and queue it for the deferred worker.  The fresh reference and
the allocator outcomes are inputs of the model. -/
def gb_connection_recv_request (s : ConnState) (newRef : OpRef)
    (operation_id ty : Nat) (data : List Nat) (size : Nat)
    (zallocOk : Bool) (reqAlloc : Option GbBuffer) : ConnState :=
  match gb_operation_create_common false ty size 0 zallocOk reqAlloc none with
  | (none, _) => { s with errlog := s.errlog + 1 }
  | (some op, _) =>
    let op1 := { op with
      id := operation_id,
      request := { op.request with
        buffer := op.request.buffer.map
          (fun b => { b with bytes := memcpyInto b.bytes data size }) } }
    { s with ops := s.ops ++ [(newRef, op1)],
             operations := s.operations ++ [newRef],
             workqueue := s.workqueue ++ [newRef] }

/-- `gb_connection_recv`: the dispatcher entry point.  Drop (with a log
line) when the connection is not enabled, when fewer bytes than a header
arrived, or when the header size field exceeds the bytes received;
otherwise classify on the response bit of the type byte and hand off to
the response or request path. -/
def gb_connection_recv (s : ConnState) (newRef : OpRef) (zallocOk : Bool)
    (reqAlloc : Option GbBuffer) (data : List Nat) (size : Nat) : ConnState :=
  if !s.enabled then { s with errlog := s.errlog + 1 }
  else if size < HDR_SIZE then { s with errlog := s.errlog + 1 }
  else
    let msg_size := le16At data 0
    if msg_size > size then { s with errlog := s.errlog + 1 }
    else
      let operation_id := le16At data 2
      let ty := data.getD 4 0
      if (ty &&& GB_OPERATION_TYPE_RESPONSE) ≠ 0 then
        gb_connection_recv_response s operation_id data msg_size
      else
        gb_connection_recv_request s newRef operation_id ty data msg_size zallocOk reqAlloc

/-- Store `operation->callback = callback` at the start of
`gb_operation_request_send`. -/
def storeCallback (s : ConnState) (r : OpRef) (hasCb : Bool) : ConnState :=
  match getOp s r with
  | none => s
  | some op => setOp s r { op with hasCallback := hasCb }

/-- `schedule_delayed_work(&operation->timeout_work, timeout)`: arm the
per-operation timeout. -/
def armTimeout (s : ConnState) (r : OpRef) : ConnState :=
  match getOp s r with
  | none => s
  | some op => setOp s r { op with timerArmed := true }

/-- Tail of `gb_operation_request_send` after `gb_message_send` returned
`ret`: on failure return the error at once (nothing else happens);
on success arm the timeout, then either return 0 (callback supplied) or
block in `gb_operation_wait` until completion, rendered as a `none`
return value (the outcome is decided by later events). -/
def requestSendFinish (s3 : ConnState) (r : OpRef) (hasCb : Bool)
    (ret : Int) : ConnState × Option Int :=
  if ret = 0 then (armTimeout s3 r, if hasCb then some 0 else none)
  else (s3, some ret)

/-- Middle of `gb_operation_request_send`: the operation (now pending)
is looked up and its request message handed to `gb_message_send`. -/
def requestSendSubmit (s2 : ConnState) (r : OpRef) (hasCb : Bool)
    (sendResult : Except Int Nat) : ConnState × Option Int :=
  match getOp s2 r with
  | none => (s2, some 0)
  | some op =>
    requestSendFinish
      (setOp s2 r { op with request := (gb_message_send op.request sendResult).1 })
      r hasCb (gb_message_send op.request sendResult).2

/-- `gb_operation_request_send`: fail with `-ENOTCONN` unless the
connection is enabled; store the callback, insert into pending (assigning
the id), send the request and finish as `requestSendFinish` describes.
The transport outcome is an input of the model. -/
def gb_operation_request_send (s : ConnState) (r : OpRef) (hasCb : Bool)
    (sendResult : Except Int Nat) : ConnState × Option Int :=
  if !s.enabled then (s, some (-ENOTCONN))
  else
    requestSendSubmit (gb_pending_operation_insert (storeCallback s r hasCb) r)
      r hasCb sendResult

/-- Number of `buffer_free` calls on a given allocator pointer in a trace
of host-device events. -/
def countFree : List HdEvent → Nat → Nat
  | [], _ => 0
  | HdEvent.free (some q) :: tl, p => (if q = p then 1 else 0) + countFree tl p
  | HdEvent.free none :: tl, p => countFree tl p
  | HdEvent.alloc _ _ :: tl, p => countFree tl p
  | HdEvent.allocFail _ :: tl, p => countFree tl p
  | HdEvent.bufcancel _ :: tl, p => countFree tl p

/-- The host-device events over a whole operation lifetime: creation, and,
when creation succeeded, final destruction by the kref release.  In
between, use (send, cancel, submit) neither allocates nor frees
buffers. -/
def lifeTrace (outgoing : Bool) (ty rs ss : Nat) (zallocOk : Bool)
    (reqAlloc respAlloc : Option GbBuffer) : List HdEvent :=
  match gb_operation_create_common outgoing ty rs ss zallocOk reqAlloc respAlloc with
  | (none, ev) => ev
  | (some op, ev) => ev ++ gb_operation_destroy_events op

/-- Transport effects of calling `gb_operation_cancel` twice in
succession on an operation. -/
def cancelTwiceEvents (op : GbOperation) : List HdEvent :=
  (gb_operation_cancel op).2 ++ (gb_operation_cancel (gb_operation_cancel op).1).2

/-- Frame size recorded in the request message when
`gb_operation_message_init` succeeded, `none` on failure. -/
def okRequestFrameSize (x : Except Int GbOperation) : Option Nat :=
  match x with
  | Except.ok o => some o.request.buffer_size
  | Except.error _ => none

/-- A submitted outgoing operation with id 1: in flight (request cookie
stored), timeout armed, a 12-byte request frame sent and a 12-byte
response buffer (4-byte payload) whose fresh bytes are all zero. -/
def opPendingA : GbOperation :=
  { id := 1, result := 0, hasCallback := true, canceled := false,
    timerArmed := true,
    request := { buffer := some ⟨1, List.replicate 12 0⟩, buffer_size := 12,
                 cookie := some 7 },
    response := { buffer := some ⟨2, List.replicate 12 0⟩, buffer_size := 12,
                  cookie := none },
    kref := 1, completions := 0 }

/-- An enabled connection with `opPendingA` (reference 0) as its only
operation, sitting on the pending list. -/
def stPendingA : ConnState :=
  { ops := [(0, opPendingA)], operations := [], pending := [0],
    op_cycle := 1, enabled := true, workqueue := [], errlog := 0 }

/-- A well-formed 12-byte response frame for operation id 1: header
`size = 12`, `operation_id = 1`, `type = 0x81` (response bit set),
`result = 0`, two pad bytes, and a 4-byte payload. -/
def respFrame12 : List Nat :=
  [12, 0, 1, 0, 129, 0, 0, 0, 170, 187, 204, 221]

/-- State of `stPendingA` after the operation timeout fired. -/
def stAfterTimeout : ConnState := runTimeout stPendingA 0

/-- State after a response for the timed-out operation arrives late at
the dispatcher (the fresh-reference / allocator inputs feed only the
request path, which is not taken). -/
def stAfterLateResponse : ConnState :=
  gb_connection_recv stAfterTimeout 99 false none respFrame12 12

/-- State after the deferred worker runs the job queued by the late
response. -/
def stAfterLateWork : ConnState := runRecvWork true stAfterLateResponse 0

/-- A 16-byte response frame for operation id 1, larger than the 12-byte
response buffer of `opPendingA`. -/
def overflowFrame16 : List Nat :=
  [16, 0, 1, 0, 129, 0, 0, 0, 1, 2, 3, 4, 5, 6, 7, 8]

/-- State of `stPendingA` after the oversized response arrives. -/
def stOverflow : ConnState :=
  gb_connection_recv stPendingA 99 false none overflowFrame16 16

/-- Like `opPendingA`, but the freshly allocated response buffer happens
to hold the (uninitialised) byte 5 at its first payload position. -/
def opStale : GbOperation :=
  { opPendingA with
    response := { buffer := some ⟨2, (List.replicate 12 0).set 8 5⟩,
                  buffer_size := 12, cookie := none } }

/-- An enabled connection with `opStale` pending. -/
def stStale : ConnState :=
  { ops := [(0, opStale)], operations := [], pending := [0],
    op_cycle := 1, enabled := true, workqueue := [], errlog := 0 }

/-- State of `stStale` after the matching response `respFrame12`
(header result byte 0) arrives. -/
def stAfterStaleResponse : ConnState :=
  gb_connection_recv stStale 99 false none respFrame12 12

/-- A freshly created outgoing operation (id still 0), not yet
submitted. -/
def opFreshOutgoing : GbOperation :=
  { newOperation with
    request := { buffer := some ⟨1, List.replicate 12 0⟩, buffer_size := 12,
                 cookie := none },
    response := { buffer := some ⟨2, List.replicate 12 0⟩, buffer_size := 12,
                  cookie := none } }

/-- An enabled connection whose id counter sits at the 16-bit maximum,
with `opFreshOutgoing` (reference 0) on the operations list. -/
def stWrap : ConnState :=
  { ops := [(0, opFreshOutgoing)], operations := [0], pending := [],
    op_cycle := 65535, enabled := true, workqueue := [], errlog := 0 }

/-- An enabled connection with `opFreshOutgoing` ready to submit. -/
def stReady : ConnState :=
  { ops := [(0, opFreshOutgoing)], operations := [0], pending := [],
    op_cycle := 1, enabled := true, workqueue := [], errlog := 0 }

/-- A buffer the host driver could return for an oversized request. -/
def bufC7 : GbBuffer := ⟨3, List.replicate 8 0⟩

/-- Message initialisation for a request payload of 4089 bytes, which
exceeds `GB_OPERATION_MESSAGE_SIZE_MAX - HDR_SIZE` but not
`GB_OPERATION_MESSAGE_SIZE_MAX`. -/
def oversizeInit : Except Int GbOperation × List HdEvent :=
  gb_operation_message_init newOperation 1 4089 true (some bufC7)

theorem lookupOp_storeOp_self (l : List (OpRef × GbOperation)) (r : OpRef)
    (v op : GbOperation) (h : lookupOp l r = some op) :
    lookupOp (storeOp l r v) r = some v := by
  induction l with
  | nil => simp [lookupOp] at h
  | cons hd tl ih =>
    obtain ⟨k, w⟩ := hd
    by_cases hk : k = r
    · simp [lookupOp, storeOp, hk]
    · simp only [lookupOp, storeOp, if_neg hk] at h ⊢
      exact ih h

theorem getOp_setOp_self (s : ConnState) (r : OpRef) (v op : GbOperation)
    (h : getOp s r = some op) : getOp (setOp s r v) r = some v :=
  lookupOp_storeOp_self s.ops r v op h

theorem insert_spec (s : ConnState) (r : OpRef) (op : GbOperation)
    (hop : getOp s r = some op) :
    getOp (gb_pending_operation_insert s r) r = some
      { op with id := (s.op_cycle + 1) % 65536,
                request := { op.request with
                  buffer := op.request.buffer.map
                    (fun b => { b with
                      bytes := setHeaderId b.bytes ((s.op_cycle + 1) % 65536) }) } } ∧
    (gb_pending_operation_insert s r).pending = s.pending.erase r ++ [r] ∧
    (gb_pending_operation_insert s r).op_cycle = (s.op_cycle + 1) % 65536 := by
  have h1 : getOp (assignCycleAndMove s r) r = some op := hop
  unfold gb_pending_operation_insert
  rw [h1]
  exact ⟨getOp_setOp_self _ _ _ _ h1, rfl, rfl⟩

/-- Claim C1: refuted by the code.  `operation_timeout` delivers completion
without removing the operation from the pending list, so a response frame
with the same correlation id arriving after the timeout fired is still
found by `gb_pending_operation_find`, is processed, and is queued to the
deferred runner, which delivers a second completion: after the trace
timeout-fire, late response, deferred work, the operation of `stPendingA`
has been completed twice (once with result `Timeout`, then again). -/
theorem timeout_then_late_response_completes_twice :
    (getOp stAfterTimeout 0).map GbOperation.completions = some 1 ∧
    (getOp stAfterTimeout 0).map GbOperation.result = some GB_OP_TIMEOUT ∧
    (getOp stAfterLateWork 0).map GbOperation.completions = some 2 := by
  decide

/-- Claim C2: refuted by the code on the timeout path.  After
`operation_timeout` has run (and `gb_operation_complete` has returned,
having delivered one completion), the operation is still on the
connection's pending list. -/
theorem timeout_completion_leaves_operation_pending :
    (getOp stAfterTimeout 0).map GbOperation.completions = some 1 ∧
    0 ∈ stAfterTimeout.pending := by
  decide

/-- Claim C3: refuted by the code.  For a matched, fitting response frame
(`respFrame12`, whose header result byte is 0 = `GB_OP_SUCCESS`), the
dispatcher takes the operation result from the first payload byte already
sitting in the response buffer before any copy (here the uninitialised
byte 5 of `opStale`), and because that stale byte is non-zero it performs
no copy at all: the response buffer keeps its old bytes (only byte 5, the
header result slot, is overwritten with the stale byte) while the
operation is still queued to the deferred runner. -/
theorem matched_response_result_from_stale_buffer_no_copy :
    (getOp stAfterStaleResponse 0).map GbOperation.result = some 5 ∧
    respFrame12.getD 5 0 = GB_OP_SUCCESS ∧
    (getOp stAfterStaleResponse 0).map
        (fun o => (o.response.buffer.map GbBuffer.bytes).getD []) =
      some (((List.replicate 12 0).set 8 5).set 5 5) ∧
    stAfterStaleResponse.workqueue = [0] := by
  decide

/-- Claim C4: refuted by the code on the completion part.  When a matched
response is larger than the response buffer, the dispatcher records
`GB_OP_OVERFLOW` and copies nothing — but it returns without queueing the
operation to the deferred runner, so Complete never fires (the source
itself marks this `XXX Should still complete operation`); the operation
has also already been removed from pending, so no other path will
complete it. -/
theorem oversized_response_sets_overflow_without_completion :
    (getOp stOverflow 0).map GbOperation.result = some GB_OP_OVERFLOW ∧
    (getOp stOverflow 0).map GbOperation.response =
      some opPendingA.response ∧
    stOverflow.workqueue = [] ∧
    (getOp stOverflow 0).map GbOperation.completions = some 0 ∧
    0 ∉ stOverflow.pending := by
  decide

/-- Claim C5, counterexample: with the per-connection counter at the
16-bit maximum, `gb_pending_operation_insert` assigns id 0 (the source
increments with no skip of zero on wrap) and the operation with id 0 sits
on the pending list. -/
theorem insert_pending_wrap_inserts_id_zero :
    (getOp (gb_pending_operation_insert stWrap 0) 0).map GbOperation.id =
      some 0 ∧
    0 ∈ (gb_pending_operation_insert stWrap 0).pending := by
  decide

/-- Claim C7, counterexample: a request payload of 4089 bytes exceeds
`GB_OPERATION_MESSAGE_SIZE_MAX - HDR_SIZE` (= 4088), yet
`gb_operation_message_init` accepts it and allocates a 4097-byte frame,
larger than the maximum frame size. -/
theorem message_init_accepts_payload_beyond_max_minus_header :
    okRequestFrameSize oversizeInit.1 = some 4097 ∧
    GB_OPERATION_MESSAGE_SIZE_MAX - HDR_SIZE < 4089 ∧
    GB_OPERATION_MESSAGE_SIZE_MAX < 4097 := by
  decide

/-- Claim C9, counterexample: on an operation whose request message is in
flight (cookie stored), two successive cancels issue the transport
`buffer_cancel` twice, so the sequence of transport effects differs from
the one of a single cancel. -/
theorem cancel_twice_repeats_transport_effects :
    cancelTwiceEvents opPendingA ≠ (gb_operation_cancel opPendingA).2 := by
  decide

/-- Claim C9, amended: `gb_operation_cancel` is idempotent on the
operation state — cancelling twice leaves the operation exactly as one
cancel does — and the second invocation repeats the same transport
effects as the first (the cookie is never cleared, so each call re-issues
`buffer_cancel` for every in-flight buffer). -/
theorem cancel_idempotent_on_operation_state (op : GbOperation) :
    (gb_operation_cancel (gb_operation_cancel op).1).1 =
      (gb_operation_cancel op).1 ∧
    (gb_operation_cancel (gb_operation_cancel op).1).2 =
      (gb_operation_cancel op).2 := by
  exact ⟨rfl, rfl⟩

/-- Claim C10: `gb_operation_put` on a null operation only warns: the
reference count of nothing is decremented, no buffer is freed, no
operation is destroyed. -/
theorem put_null_operation_is_noop :
    gb_operation_put none = (none, true, []) := by
  rfl

/-- Claim C5, amended: `gb_pending_operation_insert` assigns `op.id` by
incrementing the per-connection 16-bit counter with no skip of zero on
wrap (so after the counter reaches 0xFFFF an operation with id 0 is
inserted into pending), moves the operation to the tail of the pending
list, and writes the assigned id into the request header. -/
theorem insert_pending_assigns_and_moves (s : ConnState) (r : OpRef)
    (op : GbOperation) (hop : getOp s r = some op) :
    (gb_pending_operation_insert s r).op_cycle = (s.op_cycle + 1) % 65536 ∧
    r ∈ (gb_pending_operation_insert s r).pending ∧
    ∃ op2, getOp (gb_pending_operation_insert s r) r = some op2 ∧
      op2.id = (s.op_cycle + 1) % 65536 ∧
      op2.request.buffer = op.request.buffer.map
        (fun b => { b with
          bytes := setHeaderId b.bytes ((s.op_cycle + 1) % 65536) }) := by
  obtain ⟨hget, hpend, hcyc⟩ := insert_spec s r op hop
  refine ⟨hcyc, ?_, _, hget, rfl, rfl⟩
  rw [hpend]
  simp

/-- Claim C5, witness for `insert_pending_assigns_and_moves` at the
concrete state `stReady`. -/
theorem insert_pending_assigns_and_moves_witness :
    (gb_pending_operation_insert stReady 0).op_cycle =
      (stReady.op_cycle + 1) % 65536 ∧
    0 ∈ (gb_pending_operation_insert stReady 0).pending := by
  have h := insert_pending_assigns_and_moves stReady 0 opFreshOutgoing (by decide)
  exact ⟨h.1, h.2.1⟩

/-- Claim C6: on an enabled connection, when the transport send fails
during submit, `gb_operation_request_send` returns the transport's error
synchronously, the operation remains on the pending list, its timeout is
not armed (the timer flag is exactly what it was before the call, and the
send cookie is null), and no completion has been delivered by the core
(the completion count is unchanged). -/
theorem request_send_transport_failure_leaves_pending (s : ConnState)
    (r : OpRef) (op : GbOperation) (cb : Bool) (e : Int)
    (hen : s.enabled = true) (hop : getOp s r = some op) (he : ¬ e = 0) :
    (gb_operation_request_send s r cb (Except.error e)).2 = some e ∧
    r ∈ (gb_operation_request_send s r cb (Except.error e)).1.pending ∧
    ∃ op2, getOp (gb_operation_request_send s r cb (Except.error e)).1 r =
        some op2 ∧
      op2.timerArmed = op.timerArmed ∧
      op2.completions = op.completions ∧
      op2.request.cookie = none := by
  have h1 : getOp (storeCallback s r cb) r = some { op with hasCallback := cb } := by
    unfold storeCallback
    rw [hop]
    exact getOp_setOp_self _ _ _ _ hop
  obtain ⟨h2, hpend, hcyc⟩ := insert_spec (storeCallback s r cb) r _ h1
  unfold gb_operation_request_send
  rw [hen]
  simp only [Bool.not_true, Bool.false_eq_true, if_false]
  unfold requestSendSubmit
  rw [h2]
  simp only [gb_message_send]
  unfold requestSendFinish
  rw [if_neg he]
  refine ⟨rfl, ?_, ?_⟩
  · show r ∈ (gb_pending_operation_insert (storeCallback s r cb) r).pending
    rw [hpend]
    simp
  · exact ⟨_, getOp_setOp_self _ _ _ _ h2, rfl, rfl, rfl⟩

/-- Claim C6, witness for `request_send_transport_failure_leaves_pending`
at the concrete state `stReady` with transport error -5. -/
theorem request_send_transport_failure_witness :
    (gb_operation_request_send stReady 0 true (Except.error (-5))).2 =
      some (-5) ∧
    0 ∈ (gb_operation_request_send stReady 0 true (Except.error (-5))).1.pending := by
  have h := request_send_transport_failure_leaves_pending stReady 0
    opFreshOutgoing true (-5) rfl (by decide) (by decide)
  exact ⟨h.1, h.2.1⟩

/-- Claim C7, amended: `gb_operation_message_init` fails with `-E2BIG`
exactly when the requested payload size exceeds the maximum frame size
(4096) itself — the header size is added only after the check — so an
allocated frame holds `payload + header` bytes and may exceed the maximum
frame size by up to the header size (frames up to 4104 bytes). -/
theorem message_init_toolarge_iff_payload_gt_max (op : GbOperation)
    (ty size : Nat) (request : Bool) (allocResult : Option GbBuffer) :
    ((gb_operation_message_init op ty size request allocResult).1 =
        Except.error (-E2BIG) ↔ GB_OPERATION_MESSAGE_SIZE_MAX < size) ∧
    (∀ op2, (gb_operation_message_init op ty size request allocResult).1 =
        Except.ok op2 →
      (if request then op2.request.buffer_size else op2.response.buffer_size) =
        size + HDR_SIZE ∧
      size + HDR_SIZE ≤ GB_OPERATION_MESSAGE_SIZE_MAX + HDR_SIZE) := by
  unfold gb_operation_message_init
  by_cases hs : GB_OPERATION_MESSAGE_SIZE_MAX < size
  · simp [hs]
  · cases allocResult with
    | none =>
      simp only [gt_iff_lt, if_neg hs]
      constructor
      · constructor
        · intro h
          exact absurd (Except.error.inj h) (by decide)
        · intro h
          exact absurd h hs
      · intro op2 h
        exact absurd h (by simp)
    | some buf =>
      cases request with
      | false =>
        simp only [gt_iff_lt, if_neg hs, Bool.false_eq_true]
        constructor
        · constructor
          · intro h
            exact absurd h (by simp)
          · intro h
            exact absurd h hs
        · intro op2 h
          rw [← Except.ok.inj h]
          refine ⟨rfl, ?_⟩
          unfold GB_OPERATION_MESSAGE_SIZE_MAX at hs ⊢
          omega
      | true =>
        simp only [gt_iff_lt, if_neg hs]
        constructor
        · constructor
          · intro h
            exact absurd h (by simp)
          · intro h
            exact absurd h hs
        · intro op2 h
          rw [← Except.ok.inj h]
          refine ⟨rfl, ?_⟩
          unfold GB_OPERATION_MESSAGE_SIZE_MAX at hs ⊢
          omega

/-- Claim C7, witness for `message_init_toolarge_iff_payload_gt_max`:
a payload of 4097 bytes is rejected with `-E2BIG`. -/
theorem message_init_toolarge_witness :
    (gb_operation_message_init newOperation 1 4097 true none).1 =
      Except.error (-E2BIG) := by
  exact (message_init_toolarge_iff_payload_gt_max newOperation 1 4097 true
    none).1.mpr (by decide)

/-- Claim C8: across every success and failure path of operation
creation and destruction (the in-between use — send, cancel, submit —
neither allocates nor frees buffers), `buffer_free` is called exactly
once for every buffer successfully returned by `buffer_alloc`: once for
the request buffer and once for the response buffer when one was
allocated.  The hypothesis states that the driver hands out distinct
pointers for distinct live buffers. -/
theorem buffer_free_exactly_once_per_alloc (outgoing : Bool)
    (ty rs ss : Nat) (z : Bool) (reqB respB : Option GbBuffer)
    (hne : ∀ b1 b2, reqB = some b1 → respB = some b2 → b1.ptr ≠ b2.ptr) :
    ∀ p sz, HdEvent.alloc p sz ∈ lifeTrace outgoing ty rs ss z reqB respB →
      countFree (lifeTrace outgoing ty rs ss z reqB respB) p = 1 := by
  intro p sz hmem
  cases z with
  | false =>
    simp [lifeTrace, gb_operation_create_common] at hmem
  | true =>
    by_cases h1 : rs > GB_OPERATION_MESSAGE_SIZE_MAX
    · simp [lifeTrace, gb_operation_create_common, gb_operation_message_init,
        h1] at hmem
    · cases reqB with
      | none =>
        simp [lifeTrace, gb_operation_create_common, gb_operation_message_init,
          h1] at hmem
      | some b1 =>
        cases outgoing with
        | false =>
          simp [lifeTrace, gb_operation_create_common,
            gb_operation_message_init, h1, gb_operation_destroy_events,
            gb_operation_message_exit, newOperation, emptyMessage,
            countFree] at hmem ⊢
          exact hmem.1.symm
        | true =>
          by_cases h2 : ss > GB_OPERATION_MESSAGE_SIZE_MAX
          · simp [lifeTrace, gb_operation_create_common,
              gb_operation_message_init, h1, h2, gb_operation_message_exit,
              countFree] at hmem ⊢
            exact hmem.1.symm
          · cases respB with
            | none =>
              simp [lifeTrace, gb_operation_create_common,
                gb_operation_message_init, h1, h2, gb_operation_message_exit,
                countFree] at hmem ⊢
              exact hmem.1.symm
            | some b2 =>
              have hpp : b1.ptr ≠ b2.ptr := hne b1 b2 rfl rfl
              simp [lifeTrace, gb_operation_create_common,
                gb_operation_message_init, h1, h2,
                gb_operation_destroy_events, gb_operation_message_exit,
                newOperation, emptyMessage, countFree] at hmem ⊢
              rcases hmem with ⟨rfl, -⟩ | ⟨rfl, -⟩
              · simp [Ne.symm hpp]
              · simp [hpp]

/-- Claim C8, witness for `buffer_free_exactly_once_per_alloc` on a
concrete outgoing-operation lifetime (request buffer at pointer 1,
response buffer at pointer 2): the request buffer is freed exactly
once. -/
theorem buffer_free_exactly_once_witness :
    countFree (lifeTrace true 1 2 2 true (some ⟨1, List.replicate 10 0⟩)
      (some ⟨2, List.replicate 10 0⟩)) 1 = 1 := by
  have h := buffer_free_exactly_once_per_alloc true 1 2 2 true
    (some ⟨1, List.replicate 10 0⟩) (some ⟨2, List.replicate 10 0⟩)
    (by
      intro b1 b2 hb1 hb2
      injection hb1 with hb1e
      injection hb2 with hb2e
      subst hb1e
      subst hb2e
      decide)
  exact h 1 10 (by decide)

end Greybus
